import Mathlib

/-!
Verification development for the `markdingo/rrl` Go package (Response Rate
Limiting for authoritative DNS servers).

The Go sources are shallowly embedded below: `int64` values become `Int`
(the arithmetic in the package stays far from the 64-bit boundaries, and no
computation in any proof overflows `int64`), `uint` becomes `Nat`, Go strings
become Lean `String` (all operations used by the package are byte-wise in Go
and rune-wise here; they coincide on ASCII, and the package's own token
separators and address syntax are ASCII).

The repository's `cache` package ships only its test file, so the cache's
`UpdateAdd` primitive is modelled from the spec (section 4.1); see
`updateAdd` below.  Capacity ("shard full") and eviction are not modelled:
no claim under verification exercises them, and the cache-full error paths
of `debit` are consequently unreachable in the model.
-/

namespace RrlSpec

/-- Go: `const second = 1000000000` (config.go), which equals `time.Second`
in nanoseconds. -/
def second : Int := 1000000000

/-- Go: `type AllowanceCategory uint8` (debit.go).  Modelled as `Nat`; the
constants below mirror the `iota` block.  Values `≥ allowanceLast` are
representable in Go (the field is a plain `uint8`) and are kept
representable here. -/
abbrev AllowanceCategory := Nat

def AllowanceAnswer : AllowanceCategory := 0

def AllowanceReferral : AllowanceCategory := 1

def AllowanceNoData : AllowanceCategory := 2

def AllowanceNXDomain : AllowanceCategory := 3

def AllowanceError : AllowanceCategory := 4

def allowanceLast : AllowanceCategory := 5

/-- Go: `type Action int` with constants `Send`, `Drop`, `Slip` (debit.go).
`Debit` only ever produces these three, so the enumeration is modelled as an
inductive type. -/
inductive Action where
  | Send
  | Drop
  | Slip
deriving DecidableEq

/-- Go: `type IPReason int` (debit.go). -/
inductive IPReason where
  | IPOk
  | IPNotConfigured
  | IPNotReached
  | IPRateLimit
  | IPCacheFull
deriving DecidableEq

/-- Go: `type RTReason int` (debit.go). -/
inductive RTReason where
  | RTOk
  | RTNotConfigured
  | RTNotReached
  | RTRateLimit
  | RTNotUDP
  | RTCacheFull
deriving DecidableEq

/-- Index of an `Action` in the `Stats.Actions` array (`ActionLast = 3`). -/
def Action.idx : Action → Fin 3
  | .Send => 0
  | .Drop => 1
  | .Slip => 2

/-- Index of an `IPReason` in the `Stats.IPReasons` array (`IPLast = 5`). -/
def IPReason.idx : IPReason → Fin 5
  | .IPOk => 0
  | .IPNotConfigured => 1
  | .IPNotReached => 2
  | .IPRateLimit => 3
  | .IPCacheFull => 4

/-- Index of an `RTReason` in the `Stats.RTReasons` array (`RTLast = 6`). -/
def RTReason.idx : RTReason → Fin 6
  | .RTOk => 0
  | .RTNotConfigured => 1
  | .RTNotReached => 2
  | .RTRateLimit => 3
  | .RTNotUDP => 4
  | .RTCacheFull => 5

/-- Go: `type ResponseTuple struct` (debit.go).  The Go field `Type` is a
reserved word in Lean and is rendered `Qtype`; `Class` and `Qtype` are
`uint16` in Go, modelled as `Nat`. -/
structure ResponseTuple where
  Class : Nat
  Qtype : Nat
  AllowanceCategory : AllowanceCategory
  SalientName : String
deriving DecidableEq

/-- Go: `type Config struct` (config.go).  `int64` fields become `Int`,
`uint` becomes `Nat`.  The Go field `nowFunc func() time.Time` is a clock
callback; only whether it has been installed matters to `finalize`, so it is
modelled by the flag `nowFuncSet`, and the clock reading itself is passed to
`Debit`/`debit` as an explicit `now` argument. -/
structure Config where
  window : Int
  ipv4PrefixLength : Int
  ipv6PrefixLength : Int
  responsesInterval : Int
  nodataInterval : Int
  nxdomainsInterval : Int
  referralsInterval : Int
  errorsInterval : Int
  requestsInterval : Int
  slipRatio : Nat
  maxTableSize : Int
  nodataIntervalSet : Bool
  nxdomainsIntervalSet : Bool
  referralsIntervalSet : Bool
  errorsIntervalSet : Bool
  nowFuncSet : Bool
deriving DecidableEq

/-- Go: `var defaultConfig = Config{...}` (config.go).  In Go the default
record carries `nowFunc: time.Now`; hence `nowFuncSet := true`.  A config
built by `NewConfig` and then given a test clock through `SetNowFunc` also
has `nowFuncSet = true`. -/
def defaultConfig : Config where
  window := 15 * second
  ipv4PrefixLength := 24
  ipv6PrefixLength := 56
  responsesInterval := 0
  nodataInterval := 0
  nxdomainsInterval := 0
  referralsInterval := 0
  errorsInterval := 0
  requestsInterval := 0
  slipRatio := 2
  maxTableSize := 100000
  nodataIntervalSet := false
  nxdomainsIntervalSet := false
  referralsIntervalSet := false
  errorsIntervalSet := false
  nowFuncSet := true

/-- Go: `func NewConfig() *Config` returns a copy of `defaultConfig`. -/
def NewConfig : Config := defaultConfig

/-- Go: `type responseAccount struct` (rrl.go): `allowTime int64`,
`slipCountdown uint`. -/
structure responseAccount where
  allowTime : Int
  slipCountdown : Nat
deriving DecidableEq

/-- The account database: the cache maps token strings to
`*responseAccount`.  Modelled as an association list with unique keys
maintained by construction (lookup takes the first binding). -/
abbrev Table := List (String × responseAccount)

/-- Lookup of a key in the table (the cache's shard-map read). -/
def lookupAccount : Table → String → Option responseAccount
  | [], _ => none
  | (k, v) :: rest, t => if k = t then some v else lookupAccount rest t

/-- In-place overwrite of the first binding of key `t` (the Go update
function mutates the entry through its pointer while the shard lock is
held). -/
def setAccount : Table → String → responseAccount → Table
  | [], _, _ => []
  | (k, v) :: rest, t, ra =>
      if k = t then (k, ra) :: rest else (k, v) :: setAccount rest t ra

/-- Modelled from the spec: the repository's `cache` package is not under
`src/` (only its test file is), so the cache's `UpdateAdd` composite
primitive is taken from spec section 4.1 ("UpdateOrInsert semantics"),
steps 2 and 3: if the key exists, invoke the update function on the
existing value and return its result; else construct a new value with the
add function, store it, and return the insert sentinel (`none`, which Go
renders as a `nil` result).  Step 4 (shard capacity, opportunistic
eviction, and the "shard full" error sentinel) is not modelled: no claim
under verification reaches it. -/
def updateAdd (tbl : Table) (t : String)
    (upd : responseAccount → (Int × Bool) × responseAccount)
    (add : Unit → responseAccount) : Option (Int × Bool) × Table :=
  match lookupAccount tbl t with
  | some ra =>
      let r := upd ra
      (some r.1, setAccount tbl t r.2)
  | none => (none, (t, add ()) :: tbl)

/-- The body of the 'update' closure of `debit` (rrl.go lines 126-151):
recompute the balance from `now`, clamp it to at most `1s − allowance` and
at least `−window`, re-encode it into `allowTime`, and run the slip
countdown.  Returns the `balances{balance, slip}` result and the mutated
account. -/
def updateAccount (cfg : Config) (now allowance : Int) (ra0 : responseAccount) :
    (Int × Bool) × responseAccount :=
  let balance0 := now - ra0.allowTime - allowance
  let balance : Int :=
    if second ≤ balance0 then second - allowance
    else if balance0 < -cfg.window then -cfg.window
    else balance0
  let ra1 : responseAccount := { ra0 with allowTime := now - balance }
  if 0 < balance ∨ ra1.slipCountdown = 0 then ((balance, false), ra1)
  else if ra1.slipCountdown = 1 then
    ((balance, true), { ra1 with slipCountdown := cfg.slipRatio })
  else ((balance, false), { ra1 with slipCountdown := ra1.slipCountdown - 1 })

/-- The body of the 'add' closure of `debit` (rrl.go lines 155-161): a new
account starts with one second of credit less the allowance of the current
query, and a fresh slip countdown. -/
def newResponseAccount (cfg : Config) (now allowance : Int) : responseAccount where
  allowTime := now - second + allowance
  slipCountdown := cfg.slipRatio

/-- Go: `func (rrl *RRL) debit(allowance int64, t string) (int64, bool, error)`
(rrl.go lines 117-173).  `now` is the value `rrl.cfg.nowFunc().UnixNano()`
read inside the closures.  The `nil` result of `UpdateAdd` (the insert
sentinel) yields `(0, false)`; the error result arises only from the
unmodelled "shard full" path, so the error return is dropped here. -/
def debit (cfg : Config) (now allowance : Int) (tbl : Table) (t : String) :
    (Int × Bool) × Table :=
  let r := updateAdd tbl t (fun ra => updateAccount cfg now allowance ra)
    (fun _ => newResponseAccount cfg now allowance)
  match r.1 with
  | none => ((0, false), r.2)
  | some b => (b, r.2)

/-- Go: `func (rrl *RRL) allowanceForRtype(rt AllowanceCategory) int64`
(rrl.go lines 46-60). -/
def allowanceForRtype (cfg : Config) (rt : AllowanceCategory) : Int :=
  if rt = AllowanceAnswer then cfg.responsesInterval
  else if rt = AllowanceNoData then cfg.nodataInterval
  else if rt = AllowanceNXDomain then cfg.nxdomainsInterval
  else if rt = AllowanceReferral then cfg.referralsInterval
  else if rt = AllowanceError then cfg.errorsInterval
  else -1

/-- Go's `strings.ToLower`.  Lean's `Char.toLower` folds exactly the ASCII
letters; Go additionally folds non-ASCII letters, which no claim under
verification exercises (DNS names and the package's own separators are
ASCII). -/
def toLowerGo (s : String) : String := String.mk (s.toList.map Char.toLower)

/-- Go: `func (rrl *RRL) buildToken(rt AllowanceCategory, qType uint16, name,
ipPrefix string) string` (rrl.go lines 85-111).  `strconv.FormatUint(x, 10)`
is decimal rendering, `strings.Join(l, "/")` is `String.intercalate "/"`. -/
def buildToken (rt : AllowanceCategory) (qType : Nat) (name ipPre : String) :
    String :=
  let rtypestr := toString rt
  if rt = AllowanceAnswer then
    String.intercalate "/" [ipPre, rtypestr, toString qType, name]
  else if rt = AllowanceNoData then
    String.intercalate "/" [ipPre, rtypestr, "", name]
  else if rt = AllowanceNXDomain then
    String.intercalate "/" [ipPre, rtypestr, "", name]
  else if rt = AllowanceReferral then
    String.intercalate "/" [ipPre, rtypestr, toString qType, name]
  else if rt = AllowanceError then
    String.intercalate "/" [ipPre, rtypestr, "", ""]
  else ""

/-- Go: `func (rrl *RRL) accountToken(...)` (rrl.go lines 80-82). -/
def accountToken (ipPre : String) (qType : Nat) (name : String)
    (rt : AllowanceCategory) : String :=
  buildToken rt qType (toLowerGo name) ipPre

/-!
Model of the parts of Go's `net` package used by `addrPrefix`: `ParseIP`
(which since Go 1.17 follows `netip.ParseAddr` and always yields a 16-byte
representation), `IP.To4`, `IP.Mask`, `CIDRMask` and `IP.String`.  A Go
`net.IP` is a byte slice; it is modelled as `List Nat` of byte values with
`[]` playing the role of the `nil` slice.
-/

/-- The 12-byte prefix of an IPv4-in-IPv6 mapped address (Go `v4InV6Prefix`). -/
def v4InV6Prefix : List Nat := List.replicate 10 0 ++ [255, 255]

/-- Go `netip.parseIPv4Fields`: scan decimal octets separated by dots.
Arguments: remaining characters, accumulated value of the current field,
digit count of the current field, number of completed fields, completed
fields.  Rejects fields over 255, octets with leading zeros, empty fields
(a dot at the start, at the end, or after another dot), and more or fewer
than four fields. -/
def v4Fields : List Char → Nat → Nat → Nat → List Nat → Option (List Nat)
  | [], val, _, pos, fields => if pos < 3 then none else some (fields ++ [val])
  | c :: rest, val, digLen, pos, fields =>
      if '0' ≤ c ∧ c ≤ '9' then
        if digLen = 1 ∧ val = 0 then none
        else
          let val := val * 10 + (c.toNat - '0'.toNat)
          if 255 < val then none
          else v4Fields rest val (digLen + 1) pos fields
      else if c = '.' then
        if digLen = 0 ∨ rest = [] then none
        else if pos = 3 then none
        else v4Fields rest 0 0 (pos + 1) (fields ++ [val])
      else none

/-- Go `netip.parseIPv4`, then `As16`: a parsed IPv4 address is returned by
`net.ParseIP` in its 16-byte v4-mapped form. -/
def parseIPv4 (s : String) : List Nat :=
  match v4Fields s.toList 0 0 0 [] with
  | some fs => v4InV6Prefix ++ fs
  | none => []

/-- Value of a hexadecimal digit character, as scanned by `netip.parseIPv6`. -/
def hexVal (c : Char) : Option Nat :=
  if '0' ≤ c ∧ c ≤ '9' then some (c.toNat - '0'.toNat)
  else if 'a' ≤ c ∧ c ≤ 'f' then some (c.toNat - 'a'.toNat + 10)
  else if 'A' ≤ c ∧ c ≤ 'F' then some (c.toNat - 'A'.toNat + 10)
  else none

/-- Greedily scan hexadecimal digits: returns the accumulated value, the
number of digits consumed, and the rest. -/
def takeHex : List Char → Nat → Nat → Nat × Nat × List Char
  | [], acc, n => (acc, n, [])
  | c :: rest, acc, n =>
      match hexVal c with
      | some v => takeHex rest (acc * 16 + v) (n + 1)
      | none => (acc, n, c :: rest)

/-- End of `netip.parseIPv6`: expand the `::` ellipsis (shifting the bytes
after it right and zero-filling), rejecting a short address without an
ellipsis and an ellipsis that expands to zero groups. -/
def finishV6 (ip : List Nat) (ellipsis : Option Nat) : Option (List Nat) :=
  if ip.length < 16 then
    match ellipsis with
    | none => none
    | some e => some (ip.take e ++ List.replicate (16 - ip.length) 0 ++ ip.drop e)
  else
    match ellipsis with
    | none => some ip
    | some _ => none

/-- Main loop of `netip.parseIPv6`.  Each call handles one group: scan up to
four hex digits (a fifth is an error), detect an embedded trailing IPv4
address introduced by a dot, append the group, then dispatch on what
follows: end of string, a lone trailing colon (error), `::` (record the
ellipsis position), or a single colon before the next group.  The fuel
argument strictly exceeds the eight groups an address can hold, so the
`fuel = 0` case is unreachable. -/
def v6Loop : Nat → List Char → List Nat → Option Nat → Option (List Nat)
  | 0, _, _, _ => none
  | fuel + 1, s, ip, ellipsis =>
      let h := takeHex s 0 0
      let acc := h.1
      let cnt := h.2.1
      let rest := h.2.2
      if 4 < cnt then none
      else if cnt = 0 then none
      else if rest.head? = some '.' then
        if ellipsis.isNone ∧ ip.length ≠ 12 then none
        else if 16 < ip.length + 4 then none
        else
          match v4Fields s 0 0 0 [] with
          | none => none
          | some fs => finishV6 (ip ++ fs) ellipsis
      else
        let ip := ip ++ [acc / 256, acc % 256]
        match rest with
        | [] => finishV6 ip ellipsis
        | ':' :: [] => none
        | ':' :: ':' :: rest2 =>
            if ellipsis.isSome then none
            else if rest2 = [] then finishV6 ip (some ip.length)
            else if ip.length < 16 then v6Loop fuel rest2 ip (some ip.length)
            else none
        | ':' :: rest2 =>
            if ip.length < 16 then v6Loop fuel rest2 ip ellipsis
            else none
        | _ => none

/-- Go `netip.parseIPv6` entry: the leading `::` is handled before the loop.
`net.ParseIP` rejects every address carrying a `%zone` (a non-empty zone is
rejected after parsing, an empty one is a parse error), and inside an IPv6
literal `%` can only introduce a zone, so any `%` yields `nil` here. -/
def parseIPv6 (s : String) : List Nat :=
  let cs := s.toList
  if cs.contains '%' then []
  else
    match cs with
    | ':' :: ':' :: rest =>
        if rest = [] then List.replicate 16 0
        else (v6Loop 9 rest [] (some 0)).getD []
    | _ => (v6Loop 9 cs [] none).getD []

/-- The dispatch scan of `netip.ParseAddr`: the first of `.`, `:` or `%`
decides the address family (`%` before either is an immediate error, as is
a string containing none of them). -/
def firstSpecial : List Char → Option Char
  | [] => none
  | c :: rest => if c = '.' ∨ c = ':' ∨ c = '%' then some c else firstSpecial rest

/-- Go: `net.ParseIP`.  Yields the 16-byte representation, or `[]` (Go
`nil`) when the string parses as neither an IPv4 nor an IPv6 address. -/
def parseIP (s : String) : List Nat :=
  match firstSpecial s.toList with
  | some '.' => parseIPv4 s
  | some ':' => parseIPv6 s
  | _ => []

/-- Go: `net.IP.To4`: a 4-byte address, the low 4 bytes of a v4-mapped
16-byte address, else `nil`. -/
def ipTo4 (ip : List Nat) : List Nat :=
  if ip.length = 4 then ip
  else if ip.length = 16 ∧ ip.take 12 = v4InV6Prefix then ip.drop 12
  else []

/-- Byte values of `net.CIDRMask`: `l` bytes covering `n` leading one bits;
a partial byte is `^(0xff >> n)`, that is `255 - 255 / 2^n`. -/
def maskBytes : Nat → Nat → List Nat
  | 0, _ => []
  | l + 1, n =>
      if 8 ≤ n then 255 :: maskBytes l (n - 8)
      else (255 - 255 / 2 ^ n) :: maskBytes l 0

/-- Go: `net.CIDRMask(ones, bits)`: `nil` unless `bits` is 32 or 128 and
`0 ≤ ones ≤ bits`. -/
def cidrMask (ones bits : Int) : List Nat :=
  if bits ≠ 32 ∧ bits ≠ 128 then []
  else if ones < 0 ∨ bits < ones then []
  else maskBytes (bits / 8).toNat ones.toNat

/-- Go: `net.IP.Mask`: adapt a 16-byte mask to a 4-byte address and a
4-byte mask to a v4-mapped 16-byte address, then AND bytewise; mismatched
lengths yield `nil` (in particular masking a `nil` address). -/
def ipMask (ip0 mask0 : List Nat) : List Nat :=
  let mask := if mask0.length = 16 ∧ ip0.length = 4 ∧
      mask0.take 12 = List.replicate 12 255 then mask0.drop 12 else mask0
  let ip := if mask.length = 4 ∧ ip0.length = 16 ∧
      ip0.take 12 = v4InV6Prefix then ip0.drop 12 else ip0
  if ip.length ≠ mask.length then []
  else List.zipWith (fun a b => a.land b) ip mask

/-- Go `net.ubtoa`: decimal rendering of a byte. -/
def ubtoa (n : Nat) : String := toString n

/-- Go `appendHex`: lowercase hexadecimal without leading zeros (`"0"` for
zero). -/
def hexGroup (n : Nat) : String := String.mk (Nat.toDigits 16 n)

/-- Two-digit hexadecimal of a byte, as in Go `net.hexString` (the `"?"`
fallback of `IP.String`). -/
def byteHex (n : Nat) : String :=
  String.mk [Nat.digitChar (n / 16), Nat.digitChar (n % 16)]

/-- The eight 16-bit groups of a 16-byte address. -/
def groupsOfIP : List Nat → List Nat
  | b0 :: b1 :: rest => (b0 * 256 + b1) :: groupsOfIP rest
  | _ => []

/-- Length of the zero-group run starting at group index `i`. -/
def zeroRunLen (gs : List Nat) (i : Nat) : Nat :=
  ((gs.drop i).takeWhile (fun g => g = 0)).length

/-- The run-finding pass of Go `net.IP.String` (RFC 5952): the leftmost
strictly-longest run of zero groups, as (start index, length).  Go scans
byte indices in steps of two and keeps a run only when strictly longer than
the best so far, which picks the leftmost maximum. -/
def bestZeroRun (gs : List Nat) : Nat × Nat :=
  (List.range gs.length).foldl
    (fun best i =>
      let r := zeroRunLen gs i
      if 0 < r ∧ best.2 < r then (i, r) else best)
    (0, 0)

/-- The RFC 5952 IPv6 rendering of Go `net.IP.String`: hex groups joined by
colons, with the leftmost longest run of at least two zero groups collapsed
to `::`. -/
def v6String (ip : List Nat) : String :=
  let gs := groupsOfIP ip
  let br := bestZeroRun gs
  if 2 ≤ br.2 then
    String.intercalate ":" ((gs.take br.1).map hexGroup) ++ "::" ++
      String.intercalate ":" ((gs.drop (br.1 + br.2)).map hexGroup)
  else
    String.intercalate ":" (gs.map hexGroup)

/-- Go: `net.IP.String`: `"<nil>"` for the nil address, dotted decimal for
an IPv4 (or v4-mapped) address, the `"?"` hex fallback for other lengths,
else the RFC 5952 form. -/
def ipString (ip : List Nat) : String :=
  if ip = [] then "<nil>"
  else
    let p4 := ipTo4 ip
    if p4.length = 4 then String.intercalate "." (p4.map ubtoa)
    else if ip.length ≠ 16 then "?" ++ String.join (ip.map byteHex)
    else v6String ip

/-- Index of the last occurrence of `ch`, `-1` when absent (Go
`strings.LastIndex(addr, ":")`; Go indexes bytes, this model indexes
characters — identical on ASCII input, and `:` itself is ASCII). -/
def lastIndexAux : List Char → Char → Int → Int → Int
  | [], _, _, best => best
  | c :: rest, ch, i, best =>
      lastIndexAux rest ch (i + 1) (if c = ch then i else best)

/-- See `lastIndexAux`. -/
def lastIndexOfChar (s : String) (ch : Char) : Int :=
  lastIndexAux s.toList ch 0 (-1)

/-- Go: `func (rrl *RRL) addrPrefix(addr string) string` (rrl.go lines
177-191): split off the port at the last colon (an index below 4 cannot
carry a bracketed host, so return `""`), try IPv4 (To4 succeeds also for a
v4-mapped parse), else strip the brackets and mask as IPv6.  Note that when
the host parses as neither family both `ParseIP` calls yield `nil`,
`Mask` of `nil` is `nil`, and `nil.String()` is `"<nil>"`. -/
def addrPrefix (cfg : Config) (addr : String) : String :=
  let cs := addr.toList
  let i := lastIndexOfChar addr ':'
  if i < 4 then ""
  else
    let ip := parseIP (String.mk (cs.take i.toNat))
    if (ipTo4 ip).length = 4 then
      ipString (ipMask ip (cidrMask cfg.ipv4PrefixLength 32))
    else
      let ip2 := parseIP (String.mk ((cs.take (i.toNat - 1)).drop 1))
      ipString (ipMask ip2 (cidrMask cfg.ipv6PrefixLength 128))

/-- Go: `strings.HasPrefix(s, pre)` — a byte-wise (here character-wise)
prefix test, case-sensitive. -/
def hasPrefixGo (s pre : String) : Bool := pre.toList.isPrefixOf s.toList

/-- Go: `type Stats struct` (stats file): four fixed-size counter arrays
indexed by the outcome enumerations, plus `CacheLength` and `Evictions`.
The arrays are modelled as functions out of `Fin`.  Evictions are not
modelled (the cache's capacity pressure is never reached by the claims), so
`Evictions` stays at its initial value. -/
structure Stats where
  RPS : Fin 5 → Int
  Actions : Fin 3 → Int
  IPReasons : Fin 5 → Int
  RTReasons : Fin 6 → Int
  CacheLength : Int
  Evictions : Int

/-- The all-zero statistics record (Go's zero value). -/
def zeroStats : Stats where
  RPS := fun _ => 0
  Actions := fun _ => 0
  IPReasons := fun _ => 0
  RTReasons := fun _ => 0
  CacheLength := 0
  Evictions := 0

/-- Increment one cell of a counter array. -/
def bumpAt {n : Nat} (f : Fin n → Int) (i : Fin n) : Fin n → Int :=
  fun j => if j = i then f j + 1 else f j

/-- Go: `func (c *Stats) incrementDebit(act Action, ipr IPReason, rtr
RTReason, ac AllowanceCategory)` (stats file lines 53-66).  Each counter is
bumped only when its index is within the array (`0 ≤ x ∧ x < xLast`); for
`act`, `ipr` and `rtr` the inductive representation ranges over exactly the
values `Debit` produces, so those three guards always hold and are realised
by the total index functions; the guard on the raw `uint8` category remains
explicit. -/
def incrementDebit (c : Stats) (act : Action) (ipr : IPReason) (rtr : RTReason)
    (ac : AllowanceCategory) : Stats :=
  { c with
    Actions := bumpAt c.Actions act.idx
    IPReasons := bumpAt c.IPReasons ipr.idx
    RTReasons := bumpAt c.RTReasons rtr.idx
    RPS := if h : ac < 5 then bumpAt c.RPS ⟨ac, h⟩ else c.RPS }

/-- Go: `type RRL struct` (rrl.go): the finalized configuration, the account
cache and the statistics record. -/
structure RRL where
  cfg : Config
  table : Table
  stats : Stats

/-- The `(act, ipr, rtr)` return triple of `Debit`. -/
structure DebitOutcome where
  act : Action
  ipr : IPReason
  rtr : RTReason
deriving DecidableEq

/-- The response-tuple stage of `Debit` (debit.go lines 232-271), entered
with the `IPReason` determined by the IP stage: bypass for a non-`"udp"`
transport, bypass when the category's allowance is zero, else debit the
tuple's account and translate a negative balance into `Drop`/`Slip`.  The
`RTCacheFull` error path is unreachable in the model (no cache capacity). -/
def rtStage (cfg : Config) (tbl : Table) (nowRT : Int) (ipr : IPReason)
    (network ipPre : String) (tuple : ResponseTuple) : DebitOutcome × Table :=
  if ¬ hasPrefixGo network "udp" then (⟨.Send, ipr, .RTNotUDP⟩, tbl)
  else
    let allowance := allowanceForRtype cfg tuple.AllowanceCategory
    if allowance = 0 then (⟨.Send, ipr, .RTNotConfigured⟩, tbl)
    else
      let name := toLowerGo tuple.SalientName
      let t := accountToken ipPre tuple.Qtype name tuple.AllowanceCategory
      let r := debit cfg nowRT allowance tbl t
      if r.1.1 < 0 then
        (⟨if r.1.2 then .Slip else .Drop, ipr, .RTRateLimit⟩, r.2)
      else (⟨.Send, ipr, .RTOk⟩, r.2)

/-- The state-and-result core of `Debit` (debit.go lines 202-272) without
the deferred statistics update: derive the client network, run the IP stage
when `requests-per-second` is configured (slip is ignored there; a negative
balance drops the query with `RTNotReached`), then the response-tuple
stage.  `nowIP` and `nowRT` are the two clock readings of the two `debit`
calls; the `IPCacheFull` error path is unreachable in the model. -/
def DebitCore (cfg : Config) (tbl : Table) (nowIP nowRT : Int)
    (network srcStr : String) (tuple : ResponseTuple) : DebitOutcome × Table :=
  let ipPre := addrPrefix cfg srcStr
  if cfg.requestsInterval ≠ 0 then
    let r := debit cfg nowIP cfg.requestsInterval tbl ipPre
    if r.1.1 < 0 then (⟨.Drop, .IPRateLimit, .RTNotReached⟩, r.2)
    else rtStage cfg r.2 nowRT .IPOk network ipPre tuple
  else rtStage cfg tbl nowRT .IPNotConfigured network ipPre tuple

/-- Go: `func (rrl *RRL) Debit(src net.Addr, tuple *ResponseTuple)`
(debit.go lines 202-272): the core, followed by the deferred
`incrementDebitStats` on the final `(act, ipr, rtr)` values and the tuple's
category.  `network` and `srcStr` are `src.Network()` and `src.String()`. -/
def Debit (r : RRL) (nowIP nowRT : Int) (network srcStr : String)
    (tuple : ResponseTuple) : DebitOutcome × RRL :=
  let o := DebitCore r.cfg r.table nowIP nowRT network srcStr tuple
  (o.1, { r with
    table := o.2
    stats := incrementDebit r.stats o.1.act o.1.ipr o.1.rtr tuple.AllowanceCategory })

/-- One request to `Debit`: the two clock readings, the `net.Addr` pair
(transport tag and address string) and the response tuple. -/
structure DebitCall where
  nowIP : Int
  nowRT : Int
  network : String
  src : String
  tuple : ResponseTuple

/-- A finite sequence of `Debit` calls against one `RRL` instance,
returning the outcomes in order and the final state. -/
def runDebits : RRL → List DebitCall → List DebitOutcome × RRL
  | r, [] => ([], r)
  | r, c :: rest =>
      let o := Debit r c.nowIP c.nowRT c.network c.src c.tuple
      let t := runDebits o.2 rest
      (o.1 :: t.1, t.2)

/-!
Configuration: `SetValue`, `finalize`, `NewRRL` (config.go, rrl.go).

`SetValue` parses its argument with `strconv.Atoi` and `strconv.ParseFloat`,
which live outside this repository; they are passed in as parameters
(`atoi`, `pf`), so every theorem about `SetValue` holds for every parser
behaviour.  `goAtoi` and `goParseFloat` below provide executable instances
that agree with the Go functions on the plain decimal literals the claims
exercise.  The float is carried as an exact rational; `float64` rounding is
absent from the model, and the two agree whenever the literal and the
derived interval are exactly representable (true of every integer rate used
by a claim).
-/

/-- Go: `func argInvalidErr(keyword, val string, em interface)` (config.go
lines 141-147): the common error text. -/
def argInvalidErr (keyword val em : String) : String :=
  keyword ++ "='" ++ val ++ "' " ++ em

/-- Go: `func getIntervalArg(keyword, arg string) (int64, error)` (config.go
lines 304-317): parse a per-second float rate; negative is an error, zero
disables, else the interval is `second / rate` nanoseconds truncated to an
integer (`int64(...)` truncates toward zero; on this branch the rate is
positive, so the exact quotient `second · den / num` truncates as a natural
division). -/
def getIntervalArg (pf : String → Except String Rat) (keyword arg : String) :
    Except String Int :=
  match pf arg with
  | .error e => .error (argInvalidErr keyword arg e)
  | .ok rps =>
      if rps < 0 then .error (argInvalidErr keyword arg "cannot be negative")
      else if rps = 0 then .ok 0
      else .ok (((second * (rps.den : Int)).toNat / rps.num.toNat : Nat) : Int)

/-- Go: `func (c *Config) SetValue(keyword string, arg string) error`
(config.go lines 168-271).  The record is returned alongside the error
exactly as Go leaves it: untouched on every error path, with precisely the
keyword's fields assigned on success. -/
def SetValue (atoi : String → Except String Int)
    (pf : String → Except String Rat) (c : Config) (keyword arg : String) :
    Config × Option String :=
  match keyword with
  | "window" =>
      match atoi arg with
      | .error e => (c, some (argInvalidErr keyword arg e))
      | .ok w =>
          if w ≤ 0 ∨ 3600 < w then
            (c, some (argInvalidErr keyword arg "window must be between 1 and 3600"))
          else ({ c with window := w * second }, none)
  | "ipv4-prefix-length" =>
      match atoi arg with
      | .error e => (c, some (argInvalidErr keyword arg e))
      | .ok i =>
          if i ≤ 0 ∨ 32 < i then
            (c, some (argInvalidErr keyword arg "must be between 1 and 32"))
          else ({ c with ipv4PrefixLength := i }, none)
  | "ipv6-prefix-length" =>
      match atoi arg with
      | .error e => (c, some (argInvalidErr keyword arg e))
      | .ok i =>
          if i ≤ 0 ∨ 128 < i then
            (c, some (argInvalidErr keyword arg "must be between 1 and 128"))
          else ({ c with ipv6PrefixLength := i }, none)
  | "responses-per-second" =>
      match getIntervalArg pf keyword arg with
      | .error e => (c, some e)
      | .ok i => ({ c with responsesInterval := i }, none)
  | "nodata-per-second" =>
      match getIntervalArg pf keyword arg with
      | .error e => (c, some e)
      | .ok i => ({ c with nodataInterval := i, nodataIntervalSet := true }, none)
  | "nxdomains-per-second" =>
      match getIntervalArg pf keyword arg with
      | .error e => (c, some e)
      | .ok i => ({ c with nxdomainsInterval := i, nxdomainsIntervalSet := true }, none)
  | "referrals-per-second" =>
      match getIntervalArg pf keyword arg with
      | .error e => (c, some e)
      | .ok i => ({ c with referralsInterval := i, referralsIntervalSet := true }, none)
  | "errors-per-second" =>
      match getIntervalArg pf keyword arg with
      | .error e => (c, some e)
      | .ok i => ({ c with errorsInterval := i, errorsIntervalSet := true }, none)
  | "slip-ratio" =>
      match atoi arg with
      | .error e => (c, some (argInvalidErr keyword arg e))
      | .ok i =>
          if i < 0 ∨ 10 < i then
            (c, some (argInvalidErr keyword arg "must be between 0 and 10"))
          else ({ c with slipRatio := i.toNat }, none)
  | "requests-per-second" =>
      match getIntervalArg pf keyword arg with
      | .error e => (c, some e)
      | .ok i => ({ c with requestsInterval := i }, none)
  | "max-table-size" =>
      match atoi arg with
      | .error e => (c, some (argInvalidErr keyword arg e))
      | .ok i =>
          if i < 0 then (c, some (argInvalidErr keyword arg "cannot be negative"))
          else ({ c with maxTableSize := i }, none)
  | _ => (c, some ("unknown Set() keyword '" ++ keyword ++ "'"))

/-- Go: `func (c *Config) SetNowFunc(fn func() time.Time)` (config.go):
installs a clock callback. -/
def SetNowFunc (c : Config) : Config := { c with nowFuncSet := true }

/-- Go: `func (c *Config) finalize()` (config.go lines 283-300): every
per-category interval not explicitly set inherits `responsesInterval`, and
a system clock is installed when none is set. -/
def finalize (c : Config) : Config :=
  { c with
    nodataInterval := if c.nodataIntervalSet then c.nodataInterval
      else c.responsesInterval
    nxdomainsInterval := if c.nxdomainsIntervalSet then c.nxdomainsInterval
      else c.responsesInterval
    referralsInterval := if c.referralsIntervalSet then c.referralsInterval
      else c.responsesInterval
    errorsInterval := if c.errorsIntervalSet then c.errorsInterval
      else c.responsesInterval
    nowFuncSet := true }

/-- Go: `func NewRRL(cfg *Config) *RRL` (rrl.go lines 29-35): `finalize` the
caller's record in place, then copy it into the new instance.  The first
component is the caller's record as it stands after the call (Go mutates it
through the pointer); the second is the instance. -/
def NewRRL (c : Config) : Config × RRL :=
  let c1 := finalize c
  (c1, { cfg := c1, table := [], stats := zeroStats })

/-- Decimal digits to a natural number, `none` on a non-digit or empty
input. -/
def digitsToNat : List Char → Nat → Option Nat
  | [], _ => none
  | [c], acc =>
      if '0' ≤ c ∧ c ≤ '9' then some (acc * 10 + (c.toNat - '0'.toNat)) else none
  | c :: rest, acc =>
      if '0' ≤ c ∧ c ≤ '9' then digitsToNat rest (acc * 10 + (c.toNat - '0'.toNat))
      else none

/-- Executable model of `strconv.Atoi` on plain decimal input: an optional
sign followed by at least one digit.  (Go additionally reports a range
error outside `int64`; the configuration keywords reject all such values
anyway and no claim exercises them.) -/
def goAtoi (s : String) : Except String Int :=
  match s.toList with
  | '-' :: rest =>
      match digitsToNat rest 0 with
      | some n => .ok (-(n : Int))
      | none => .error "invalid syntax"
  | '+' :: rest =>
      match digitsToNat rest 0 with
      | some n => .ok (n : Int)
      | none => .error "invalid syntax"
  | cs =>
      match digitsToNat cs 0 with
      | some n => .ok (n : Int)
      | none => .error "invalid syntax"

/-- Executable model of `strconv.ParseFloat` on plain decimal literals
(optional sign, digits, optional fraction), as an exact rational.  Go
accepts further forms (exponents, hex floats, inf/NaN) and rounds to
`float64`; the claims only use small integer rates, where the two agree
exactly. -/
def goParseFloat (s : String) : Except String Rat :=
  let core : List Char → Except String Rat := fun cs =>
    match cs.span (fun c => '0' ≤ c ∧ c ≤ '9') with
    | (intPart, []) =>
        match digitsToNat intPart 0 with
        | some n => .ok (n : Rat)
        | none => .error "invalid syntax"
    | (intPart, '.' :: fracPart) =>
        if intPart = [] ∧ fracPart = [] then .error "invalid syntax"
        else
          match digitsToNat (intPart ++ fracPart) 0 with
          | some n => .ok ((n : Rat) / ((10 : Rat) ^ fracPart.length))
          | none => .error "invalid syntax"
    | _ => .error "invalid syntax"
  match s.toList with
  | '-' :: rest => (core rest).map (fun q => -q)
  | '+' :: rest => core rest
  | cs => core cs

/-!
Concrete scenario material for the boundary-behaviour claims.  Each config
is built through `SetValue` with the executable parsers, mirroring the
`cfg.SetValue(...)` calls of the package's tests; `SetNowFunc` records the
test clock installation, and the pinned clock readings are the `now`
arguments of the `Debit` calls.
-/

/-- Apply one `SetValue` call with the executable parsers, keeping the
record (the tests always check that setup calls succeed). -/
def setv (c : Config) (kw arg : String) : Config :=
  (SetValue goAtoi goParseFloat c kw arg).1

/-- The finalized configuration of an instance built with
`responses-per-second=1` (allowance `1s` per answer). -/
def c1cfg : Config :=
  (NewRRL (SetNowFunc (setv NewConfig "responses-per-second" "1"))).2.cfg

/-- Table holding the single account of key `"k"` created by a first debit
at time 0 with allowance `1s` under `c1cfg`. -/
def c1tbl : Table := (debit c1cfg 0 second [] "k").2

/-- Configuration of claim C2: `responses-per-second=1`, `window=15` (and
nothing else, so `slip-ratio` keeps its default 2). -/
def c2cfg : Config := setv (setv NewConfig "responses-per-second" "1") "window" "15"

/-- The C2 instance. -/
def c2rrl : RRL := (NewRRL (SetNowFunc c2cfg)).2

/-- The fixed UDP tuple of claim C2 (an ordinary answer). -/
def c2tup : ResponseTuple := ⟨1, 1, AllowanceAnswer, "example.com."⟩

/-- A C2 debit call with both clock readings pinned at `t`. -/
def c2call (t : Int) : DebitCall := ⟨t, t, "udp", "127.0.0.1:53", c2tup⟩

/-- C2's configuration with `slip-ratio=0` additionally set (as the
package's own `TestDebitWindow` does). -/
def c2cfg0 : Config := setv c2cfg "slip-ratio" "0"

/-- The instance for the amended C2 scenario. -/
def c2rrl0 : RRL := (NewRRL (SetNowFunc c2cfg0)).2

/-!  Claim C1 — the clamped balance returned by `debit`.  -/

/-- C1 (counterexample): the claimed invariant
`−window ≤ balance ≤ 1_000_000_000 − allowance` fails on the code.  With
`responses-per-second=1` (allowance `1s`) an account debited once at time 0
and again at time `1.5s` returns balance `+0.5s`, while the claimed upper
bound is `1s − allowance = 0`.  (The parenthesised form `[−window, +1s)` of
the claim does hold here; it is the stated bound that is refuted.) -/
theorem c1_balance_counterexample :
    (debit c1cfg (3 * second / 2) second c1tbl "k").1.1 = 500000000 ∧
      ¬ ((debit c1cfg (3 * second / 2) second c1tbl "k").1.1 ≤
        second - second) := by decide

/-- Balance range of the update path: in `[−window, +1s)` whenever the
allowance is positive and at most `window + 1s`. -/
theorem updateAccount_balance_range (cfg : Config) (now allowance : Int)
    (ra : responseAccount) (h0 : 0 < allowance)
    (h1 : allowance ≤ cfg.window + second) :
    -cfg.window ≤ (updateAccount cfg now allowance ra).1.1 ∧
      (updateAccount cfg now allowance ra).1.1 < second := by
  have hs : (0 : Int) < second := by norm_num [second]
  simp only [updateAccount]
  split_ifs <;> simp only <;> omega

/-- C1 (amended): after any debit, in any table state, the balance returned
to the caller lies in `[−window, +1s)` — rather than the claimed
`[−window, 1s − allowance]` — provided the allowance is positive and at
most `window + 1s` (every debit `Debit` issues under the claim's
configuration satisfies this; for still larger allowances the high clamp
`1s − allowance` itself falls below `−window`). -/
theorem c1_balance_clamped (cfg : Config) (now allowance : Int) (tbl : Table)
    (t : String) (hw : 0 ≤ cfg.window) (h0 : 0 < allowance)
    (h1 : allowance ≤ cfg.window + second) :
    -cfg.window ≤ (debit cfg now allowance tbl t).1.1 ∧
      (debit cfg now allowance tbl t).1.1 < second := by
  have hs : (0 : Int) < second := by norm_num [second]
  unfold debit updateAdd
  cases hl : lookupAccount tbl t with
  | none => constructor <;> simp <;> omega
  | some ra =>
      have h := updateAccount_balance_range cfg now allowance ra h0 h1
      simpa using h

/-- C1 witness: the amended theorem applied at the concrete configuration
of the counterexample and a fresh account. -/
theorem c1_balance_clamped_witness :
    -c1cfg.window ≤ (debit c1cfg 0 second [] "k").1.1 ∧
      (debit c1cfg 0 second [] "k").1.1 < second :=
  c1_balance_clamped c1cfg 0 second [] "k" (by decide) (by decide) (by decide)

/-!  Claim C2 — the `responses-per-second=1`, `window=15` drop sequence.  -/

/-- C2 (counterexample): with exactly the claimed configuration
(`responses-per-second=1`, `window=15`, everything else at its default, so
`slip-ratio=2`) the third debit at a pinned clock returns `Slip`, not the
claimed `Drop`. -/
theorem c2_sequence_counterexample :
    ((runDebits c2rrl (List.replicate 3 (c2call 0))).1.map DebitOutcome.act) =
      [.Send, .Drop, .Slip] ∧ Action.Slip ≠ Action.Drop := by decide

/-- C2 (amended): with `slip-ratio=0` additionally configured (as the
package's own window test does), the claimed sequence holds exactly: one
`Send`, fifteen `Drop`s accumulating to `−15s`, still `Drop` after
advancing the clock 14s, then one `Send` and again `Drop` after a further
4s. -/
theorem c2_sequence :
    ((runDebits c2rrl0 (List.replicate 16 (c2call 0) ++ [c2call (14 * second)]
        ++ List.replicate 2 (c2call (18 * second)))).1.map DebitOutcome.act) =
      [.Send] ++ List.replicate 15 .Drop ++ [.Drop] ++ [.Send, .Drop] := by
  decide

/-!  Claim C5 — the transport-tag gate of the response-tuple stage.  -/

/-- An instance with `responses-per-second=1`, so the response-tuple stage
is configured. -/
def c5rrl : RRL := (NewRRL (SetNowFunc (setv NewConfig "responses-per-second" "1"))).2

/-- The fixed tuple used by the C5 scenario. -/
def c5tup : ResponseTuple := ⟨1, 1, AllowanceAnswer, "example.com."⟩

/-- C5 (counterexample): the transport check is case-sensitive.  The tag
`"UDP"` lowercases to `"udp"`, so the claim requires the response-tuple
stage to be entered; the code instead bypasses it with `RTNotUDP`, the
stage being configured (`responses-per-second=1`) and reached (the IP stage
is not configured, so nothing drops earlier). -/
theorem c5_case_counterexample :
    hasPrefixGo (toLowerGo "UDP") "udp" = true ∧
      (Debit c5rrl 0 0 "UDP" "127.0.0.1:53" c5tup).1.rtr = .RTNotUDP := by
  decide

/-- C5 (amended): the gate is case-sensitive.  A transport tag with literal
prefix `"udp"` (so `"udp"`, `"udp4"`, `"udp6"`, …) never yields `RTNotUDP`;
any other tag — including uppercase spellings — bypasses the response-tuple
stage with `RTNotUDP`, except when the IP stage already dropped the query
(`RTNotReached`). -/
theorem c5_udp_gate (r : RRL) (nowIP nowRT : Int) (network srcStr : String)
    (tuple : ResponseTuple) :
    (hasPrefixGo network "udp" = true →
      (Debit r nowIP nowRT network srcStr tuple).1.rtr ≠ .RTNotUDP) ∧
    (hasPrefixGo network "udp" = false →
      (Debit r nowIP nowRT network srcStr tuple).1.rtr = .RTNotUDP ∨
        (Debit r nowIP nowRT network srcStr tuple).1.rtr = .RTNotReached) := by
  constructor <;> intro h <;>
    simp only [Debit, DebitCore, rtStage, h] <;>
    split_ifs <;> simp_all

/-- C5 witness: a `"udp6"` transport enters the response-tuple stage. -/
theorem c5_udp_gate_witness :
    (Debit c5rrl 0 0 "udp6" "127.0.0.1:53" c5tup).1.rtr ≠ .RTNotUDP :=
  (c5_udp_gate c5rrl 0 0 "udp6" "127.0.0.1:53" c5tup).1 (by decide)

/-!  Claim C6 — `addrPrefix` on unparseable input.  -/

/-- The finalized default configuration, for the C6 scenario. -/
def c6cfg : Config := (NewRRL NewConfig).2.cfg

/-- Masking a `nil` address yields `nil` whatever the mask. -/
theorem ipMask_nil (m : List Nat) : ipMask [] m = [] := by
  rcases m with _ | ⟨a, m⟩ <;> simp [ipMask]

/-- C6 (counterexample): `"garbage:1234"` has its last colon at index 7 and
a host that parses as neither address family, yet `addrPrefix` returns
`"<nil>"` (the `String` form of the `nil` `net.IP`), not the claimed empty
string. -/
theorem c6_unparseable_counterexample :
    addrPrefix c6cfg "garbage:1234" = "<nil>" ∧ ("<nil>" : String) ≠ "" := by
  decide

/-- C6 (amended): inputs with no colon or with the last colon before index
4 return `""`; inputs whose last colon is at index ≥ 4 but whose host part
parses as neither an IPv4 address nor (after stripping one leading and one
trailing character, the brackets) an IPv6 address return `"<nil>"`.  Either
way the result is a single constant key under which such sources pool. -/
theorem c6_addr_unparseable (cfg : Config) (addr : String) :
    (lastIndexOfChar addr ':' < 4 → addrPrefix cfg addr = "") ∧
    (4 ≤ lastIndexOfChar addr ':' →
      parseIP (String.mk (addr.toList.take (lastIndexOfChar addr ':').toNat)) = [] →
      parseIP (String.mk ((addr.toList.take
        ((lastIndexOfChar addr ':').toNat - 1)).drop 1)) = [] →
      addrPrefix cfg addr = "<nil>") := by
  constructor
  · intro h
    simp only [addrPrefix]
    rw [if_pos h]
  · intro h h1 h2
    simp only [addrPrefix]
    rw [if_neg (by omega), h1, h2]
    simp [ipTo4, ipMask_nil, ipString]

/-- C6 witness: the amended theorem evaluated at `"garbage:1234"`. -/
theorem c6_addr_unparseable_witness :
    addrPrefix c6cfg "garbage:1234" = "<nil>" :=
  (c6_addr_unparseable c6cfg "garbage:1234").2 (by decide) (by decide) (by decide)

/-!  Claim C8 — each `Debit` bumps the statistics arrays.  -/

/-- Predicate: `g` is `f` with exactly one cell incremented by one. -/
def bumpedExactlyOne {n : Nat} (f g : Fin n → Int) : Prop :=
  ∃ i, ∀ j, g j = bumpAt f i j

instance {n : Nat} (f g : Fin n → Int) : Decidable (bumpedExactlyOne f g) :=
  inferInstanceAs (Decidable (∃ i, ∀ j, g j = bumpAt f i j))

/-- A fresh default instance for the C8 scenarios. -/
def c8rrl : RRL := (NewRRL NewConfig).2

/-- A tuple whose category byte is `AllowanceLast = 5`: a representable
`uint8` value outside the five named categories. -/
def c8tup : ResponseTuple := ⟨1, 1, 5, "x"⟩

/-- A tuple with a valid category, for the witness. -/
def c8tupValid : ResponseTuple := ⟨1, 1, AllowanceAnswer, "x"⟩

/-- C8 (counterexample): quantifying over all `uint8` category values is
too strong — for `AllowanceCategory = 5` the guard
`ac < AllowanceLast` in `incrementDebit` fails and the `RPS` array is left
entirely unchanged by the call, so no `RPS` counter is incremented. -/
theorem c8_rps_counterexample :
    (∀ j, (Debit c8rrl 0 0 "tcp" "127.0.0.1:53" c8tup).2.stats.RPS j =
      c8rrl.stats.RPS j) ∧
    ¬ bumpedExactlyOne c8rrl.stats.RPS
      (Debit c8rrl 0 0 "tcp" "127.0.0.1:53" c8tup).2.stats.RPS := by
  decide

/-- C8 (amended): every `Debit` increments exactly one counter in each of
`Actions`, `IPReasons` and `RTReasons`; it increments exactly one counter
of `RPS` precisely when the tuple's category is one of the five named
categories (`< AllowanceLast`), and leaves `RPS` untouched otherwise. -/
theorem c8_debit_increments (r : RRL) (nowIP nowRT : Int)
    (network srcStr : String) (tuple : ResponseTuple) :
    bumpedExactlyOne r.stats.Actions
      (Debit r nowIP nowRT network srcStr tuple).2.stats.Actions ∧
    bumpedExactlyOne r.stats.IPReasons
      (Debit r nowIP nowRT network srcStr tuple).2.stats.IPReasons ∧
    bumpedExactlyOne r.stats.RTReasons
      (Debit r nowIP nowRT network srcStr tuple).2.stats.RTReasons ∧
    (tuple.AllowanceCategory < 5 →
      bumpedExactlyOne r.stats.RPS
        (Debit r nowIP nowRT network srcStr tuple).2.stats.RPS) ∧
    (5 ≤ tuple.AllowanceCategory →
      (Debit r nowIP nowRT network srcStr tuple).2.stats.RPS = r.stats.RPS) := by
  refine ⟨⟨_, fun j => rfl⟩, ⟨_, fun j => rfl⟩, ⟨_, fun j => rfl⟩, ?_, ?_⟩
  · intro h
    exact ⟨⟨tuple.AllowanceCategory, h⟩,
      fun j => by simp [Debit, incrementDebit, dif_pos h]⟩
  · intro h
    simp only [Debit, incrementDebit]
    rw [dif_neg (Nat.not_lt.mpr h)]

/-- C8 witness: a debit with a valid category bumps exactly one `RPS`
cell. -/
theorem c8_debit_increments_witness :
    bumpedExactlyOne c8rrl.stats.RPS
      (Debit c8rrl 0 0 "udp" "127.0.0.1:53" c8tupValid).2.stats.RPS :=
  (c8_debit_increments c8rrl 0 0 "udp" "127.0.0.1:53" c8tupValid).2.2.2.1
    (by decide)

/-!  Claim C10 — `Debit` ignores the `Class` field.  -/

/-- C10: two `Debit` calls in the same state whose tuples agree on `Type`,
`AllowanceCategory` and `SalientName` but differ in `Class` return the same
outcome triple and produce the same successor state (hence also the same
account key, which is built from the agreeing fields only). -/
theorem c10_class_ignored (r : RRL) (nowIP nowRT : Int)
    (network srcStr : String) (cl1 cl2 ty ac : Nat) (name : String) :
    Debit r nowIP nowRT network srcStr ⟨cl1, ty, ac, name⟩ =
      Debit r nowIP nowRT network srcStr ⟨cl2, ty, ac, name⟩ := rfl

/-!  Claim C9 — `NewRRL` finalizes the caller's record in place.  -/

/-- C9: after `NewRRL`, the caller's record (the first component of the
model's `NewRRL`, which renders Go's in-place mutation through the `*Config`
pointer) has every per-category interval that was not explicitly set
overwritten with `responsesInterval`; an interval explicitly set — even to
0 — is unchanged; a default clock is installed when none was set; every
other field is untouched; and the instance keeps a copy of the finalized
record. -/
theorem c9_newRRL_finalizes (c : Config) :
    ((c.nodataIntervalSet = false →
        (NewRRL c).1.nodataInterval = c.responsesInterval) ∧
      (c.nodataIntervalSet = true →
        (NewRRL c).1.nodataInterval = c.nodataInterval)) ∧
    ((c.nxdomainsIntervalSet = false →
        (NewRRL c).1.nxdomainsInterval = c.responsesInterval) ∧
      (c.nxdomainsIntervalSet = true →
        (NewRRL c).1.nxdomainsInterval = c.nxdomainsInterval)) ∧
    ((c.referralsIntervalSet = false →
        (NewRRL c).1.referralsInterval = c.responsesInterval) ∧
      (c.referralsIntervalSet = true →
        (NewRRL c).1.referralsInterval = c.referralsInterval)) ∧
    ((c.errorsIntervalSet = false →
        (NewRRL c).1.errorsInterval = c.responsesInterval) ∧
      (c.errorsIntervalSet = true →
        (NewRRL c).1.errorsInterval = c.errorsInterval)) ∧
    (NewRRL c).1.nowFuncSet = true ∧
    (NewRRL c).1.window = c.window ∧
    (NewRRL c).1.ipv4PrefixLength = c.ipv4PrefixLength ∧
    (NewRRL c).1.ipv6PrefixLength = c.ipv6PrefixLength ∧
    (NewRRL c).1.responsesInterval = c.responsesInterval ∧
    (NewRRL c).1.requestsInterval = c.requestsInterval ∧
    (NewRRL c).1.slipRatio = c.slipRatio ∧
    (NewRRL c).1.maxTableSize = c.maxTableSize ∧
    (NewRRL c).2.cfg = (NewRRL c).1 := by
  obtain ⟨w, p4, p6, ri, nd, nx, rf, er, rq, sl, mt, f1, f2, f3, f4, nf⟩ := c
  cases f1 <;> cases f2 <;> cases f3 <;> cases f4 <;> simp [NewRRL, finalize]

/-- A configuration with `responses-per-second=1` and `nodata-per-second`
explicitly set to 0 (disabled), to exercise the "explicitly set, even to 0"
side of C9. -/
def c9cfg : Config :=
  setv (setv NewConfig "responses-per-second" "1") "nodata-per-second" "0"

/-- C9 witness: the explicitly-zeroed interval survives finalization while
an unset one inherits `responsesInterval`. -/
theorem c9_newRRL_finalizes_witness :
    (NewRRL c9cfg).1.nodataInterval = c9cfg.nodataInterval ∧
      (NewRRL c9cfg).1.nxdomainsInterval = c9cfg.responsesInterval :=
  ⟨(c9_newRRL_finalizes c9cfg).1.2 (by decide),
    (c9_newRRL_finalizes c9cfg).2.1.1 (by decide)⟩

/-!  Claim C7 — `SetValue` error handling and frame.  -/

/-- The keywords `SetValue` accepts. -/
def configKeywords : List String :=
  ["window", "ipv4-prefix-length", "ipv6-prefix-length", "responses-per-second",
    "nodata-per-second", "nxdomains-per-second", "referrals-per-second",
    "errors-per-second", "slip-ratio", "requests-per-second", "max-table-size"]

/-- Frame relation: `c'` differs from `c` at most in the field(s) owned by `keyword` (for
the four inheriting rates, the interval and its explicitly-set flag). -/
def changedOnly (keyword : String) (c c' : Config) : Prop :=
  match keyword with
  | "window" => c' = { c with window := c'.window }
  | "ipv4-prefix-length" => c' = { c with ipv4PrefixLength := c'.ipv4PrefixLength }
  | "ipv6-prefix-length" => c' = { c with ipv6PrefixLength := c'.ipv6PrefixLength }
  | "responses-per-second" => c' = { c with responsesInterval := c'.responsesInterval }
  | "nodata-per-second" =>
      c' = { c with nodataInterval := c'.nodataInterval,
                    nodataIntervalSet := c'.nodataIntervalSet }
  | "nxdomains-per-second" =>
      c' = { c with nxdomainsInterval := c'.nxdomainsInterval,
                    nxdomainsIntervalSet := c'.nxdomainsIntervalSet }
  | "referrals-per-second" =>
      c' = { c with referralsInterval := c'.referralsInterval,
                    referralsIntervalSet := c'.referralsIntervalSet }
  | "errors-per-second" =>
      c' = { c with errorsInterval := c'.errorsInterval,
                    errorsIntervalSet := c'.errorsIntervalSet }
  | "slip-ratio" => c' = { c with slipRatio := c'.slipRatio }
  | "requests-per-second" => c' = { c with requestsInterval := c'.requestsInterval }
  | "max-table-size" => c' = { c with maxTableSize := c'.maxTableSize }
  | _ => c' = c

/-- The claim's "unparseable argument" or negative rate, for the six
per-second keywords (which all validate through `getIntervalArg`). -/
def rateArgRejected (pf : String → Except String Rat) (arg : String) : Prop :=
  match pf arg with
  | .error _ => True
  | .ok rps => rps < 0

/-- The claim's "unparseable argument, or an out-of-range argument", per
keyword: the argument is rejected when its parse fails or the parsed value
falls outside the keyword's validated range (the ranges of config.go lines
168-271); an unknown keyword rejects every argument. -/
def argRejected (atoi : String → Except String Int)
    (pf : String → Except String Rat) (keyword arg : String) : Prop :=
  match keyword with
  | "window" =>
      match atoi arg with
      | .error _ => True
      | .ok w => w ≤ 0 ∨ 3600 < w
  | "ipv4-prefix-length" =>
      match atoi arg with
      | .error _ => True
      | .ok i => i ≤ 0 ∨ 32 < i
  | "ipv6-prefix-length" =>
      match atoi arg with
      | .error _ => True
      | .ok i => i ≤ 0 ∨ 128 < i
  | "responses-per-second" => rateArgRejected pf arg
  | "nodata-per-second" => rateArgRejected pf arg
  | "nxdomains-per-second" => rateArgRejected pf arg
  | "referrals-per-second" => rateArgRejected pf arg
  | "errors-per-second" => rateArgRejected pf arg
  | "slip-ratio" =>
      match atoi arg with
      | .error _ => True
      | .ok i => i < 0 ∨ 10 < i
  | "requests-per-second" => rateArgRejected pf arg
  | "max-table-size" =>
      match atoi arg with
      | .error _ => True
      | .ok i => i < 0
  | _ => True

/-- A rejected argument (or unknown keyword) always makes `SetValue`
return a non-nil error. -/
theorem setValue_rejects (atoi : String → Except String Int)
    (pf : String → Except String Rat) (c : Config) (keyword arg : String)
    (h : argRejected atoi pf keyword arg) :
    (SetValue atoi pf c keyword arg).2.isSome := by
  unfold argRejected at h
  split at h <;>
    first
      | -- the five integer keywords: a parse failure errors at once, a
        -- parsed value errors through its range test
        (rcases ha : atoi arg with e | w
         · simp [SetValue, ha]
         · rw [ha] at h
           simp only at h
           simp [SetValue, ha, if_pos h])
      | -- the six rate keywords, which all validate through getIntervalArg
        (rcases hp : pf arg with e | rps
         · simp [SetValue, getIntervalArg, hp]
         · unfold rateArgRejected at h
           rw [hp] at h
           simp only at h
           simp [SetValue, getIntervalArg, hp, if_pos h])
      | -- unknown keywords
        simp_all [SetValue]

/-- An argument the keyword's parser and range test accept always makes
`SetValue` succeed (return `nil`). -/
theorem setValue_accepts (atoi : String → Except String Int)
    (pf : String → Except String Rat) (c : Config) (keyword arg : String)
    (h : ¬ argRejected atoi pf keyword arg) :
    (SetValue atoi pf c keyword arg).2 = none := by
  unfold argRejected at h
  split at h <;>
    first
      | -- the five integer keywords
        (rcases ha : atoi arg with e | w
         · rw [ha] at h
           simp only at h
           exact absurd True.intro h
         · rw [ha] at h
           simp only at h
           simp only [SetValue, ha]
           rw [if_neg h])
      | -- the six rate keywords
        (rcases hp : pf arg with e | rps
         · unfold rateArgRejected at h
           rw [hp] at h
           simp only at h
           exact absurd True.intro h
         · unfold rateArgRejected at h
           rw [hp] at h
           simp only at h
           simp only [SetValue, getIntervalArg, hp]
           rw [if_neg h]
           split_ifs <;> rfl)
      | -- unknown keywords reject everything, so this case is vacuous
        exact absurd True.intro h

/-- C7: for every parser behaviour, every starting record, every keyword
and every argument: when `SetValue` returns an error the record is exactly
as before; when it returns `nil` only the keyword's field(s) changed; an
unknown keyword always returns an error; an unparseable or out-of-range
argument always returns an error; and an argument the keyword's parser and
range test accept always returns `nil`. -/
theorem c7_setValue_frame (atoi : String → Except String Int)
    (pf : String → Except String Rat) (c : Config) (keyword arg : String) :
    ((SetValue atoi pf c keyword arg).2.isSome →
      (SetValue atoi pf c keyword arg).1 = c) ∧
    ((SetValue atoi pf c keyword arg).2 = none →
      changedOnly keyword c (SetValue atoi pf c keyword arg).1) ∧
    (keyword ∉ configKeywords → (SetValue atoi pf c keyword arg).2.isSome) ∧
    (argRejected atoi pf keyword arg →
      (SetValue atoi pf c keyword arg).2.isSome) ∧
    (¬ argRejected atoi pf keyword arg →
      (SetValue atoi pf c keyword arg).2 = none) := by
  refine ⟨?_, ?_, fun hk => ?_, setValue_rejects atoi pf c keyword arg,
    setValue_accepts atoi pf c keyword arg⟩
  · unfold SetValue
    split <;> (try split) <;> (try split_ifs) <;> simp
  · unfold SetValue
    split <;> (try split) <;> (try split_ifs) <;> simp [changedOnly]
  · unfold SetValue
    split <;> simp_all [configKeywords]

/-- C7 witness: an unparseable `window` argument leaves the record intact;
a successful `slip-ratio` assignment touches only its field; an
unparseable and an out-of-range argument both return errors; an in-range
argument returns `nil`. -/
theorem c7_setValue_frame_witness :
    (SetValue goAtoi goParseFloat NewConfig "window" "oops").1 = NewConfig ∧
      changedOnly "slip-ratio" NewConfig
        (SetValue goAtoi goParseFloat NewConfig "slip-ratio" "3").1 ∧
      (SetValue goAtoi goParseFloat NewConfig "window" "oops").2.isSome ∧
      (SetValue goAtoi goParseFloat NewConfig "window" "9999").2.isSome ∧
      (SetValue goAtoi goParseFloat NewConfig "window" "30").2 = none :=
  ⟨(c7_setValue_frame goAtoi goParseFloat NewConfig "window" "oops").1
      (by decide),
    (c7_setValue_frame goAtoi goParseFloat NewConfig "slip-ratio" "3").2.1
      (by decide),
    (c7_setValue_frame goAtoi goParseFloat NewConfig "window" "oops").2.2.2.1
      True.intro,
    (c7_setValue_frame goAtoi goParseFloat NewConfig "window" "9999").2.2.2.1
      (Or.inr (by decide)),
    (c7_setValue_frame goAtoi goParseFloat NewConfig "window" "30").2.2.2.2
      (by intro hr; have h : (30 : Int) ≤ 0 ∨ 3600 < (30 : Int) := hr; omega)⟩

/-!  Claim C3 — `slipRatio = 0` means no `Slip`, ever.  -/

/-- Every account in the table has an exhausted slip countdown (the invariant
maintained by an instance whose `slipRatio` is 0). -/
def tableSlipZero (tbl : Table) : Prop := ∀ p ∈ tbl, p.2.slipCountdown = 0

theorem lookupAccount_mem {tbl : Table} {t : String} {ra : responseAccount}
    (h : lookupAccount tbl t = some ra) : (t, ra) ∈ tbl := by
  induction tbl with
  | nil => simp [lookupAccount] at h
  | cons p rest ih =>
      by_cases hk : p.1 = t
      · rcases p with ⟨k, v⟩
        simp only [lookupAccount, if_pos hk] at h
        cases hk
        cases h
        exact List.mem_cons_self _ _
      · rcases p with ⟨k, v⟩
        simp only [lookupAccount, if_neg hk] at h
        exact List.mem_cons_of_mem _ (ih h)

theorem setAccount_mem {tbl : Table} {t : String} {ra : responseAccount} {q}
    (h : q ∈ setAccount tbl t ra) : q.2 = ra ∨ q ∈ tbl := by
  induction tbl with
  | nil => simp [setAccount] at h
  | cons p rest ih =>
      rcases p with ⟨k, v⟩
      by_cases hk : k = t
      · simp only [setAccount, if_pos hk] at h
        rcases List.mem_cons.mp h with h | h
        · left; rw [h]
        · right; exact List.mem_cons_of_mem _ h
      · simp only [setAccount, if_neg hk] at h
        rcases List.mem_cons.mp h with h | h
        · right; rw [h]; exact List.mem_cons_self _ _
        · rcases ih h with h' | h'
          · left; exact h'
          · right; exact List.mem_cons_of_mem _ h'

/-- With a zero countdown the update path neither slips nor rearms the
countdown. -/
theorem updateAccount_countdown_zero (cfg : Config) (now a : Int)
    {ra : responseAccount} (h : ra.slipCountdown = 0) :
    (updateAccount cfg now a ra).1.2 = false ∧
      (updateAccount cfg now a ra).2.slipCountdown = 0 := by
  simp only [updateAccount]
  rw [if_pos (Or.inr h)]
  exact ⟨rfl, h⟩

/-- Under `slipRatio = 0` a debit never reports a slip and preserves the
all-zero-countdown invariant. -/
theorem debit_slip_zero {cfg : Config} (hr : cfg.slipRatio = 0) {tbl : Table}
    (ht : tableSlipZero tbl) (now a : Int) (t : String) :
    (debit cfg now a tbl t).1.2 = false ∧
      tableSlipZero (debit cfg now a tbl t).2 := by
  unfold debit updateAdd
  cases hl : lookupAccount tbl t with
  | none =>
      refine ⟨rfl, fun p hp => ?_⟩
      rcases List.mem_cons.mp hp with h | h
      · rw [h]; exact hr
      · exact ht p h
  | some ra =>
      have hz := ht _ (lookupAccount_mem hl)
      have hu := updateAccount_countdown_zero cfg now a hz
      refine ⟨hu.1, fun p hp => ?_⟩
      rcases setAccount_mem hp with h | h
      · rw [h]; exact hu.2
      · exact ht p h

/-- Under `slipRatio = 0` the response-tuple stage never recommends `Slip`
and preserves the invariant. -/
theorem rtStage_no_slip {cfg : Config} (hr : cfg.slipRatio = 0) {tbl : Table}
    (ht : tableSlipZero tbl) (nowRT : Int) (ipr : IPReason)
    (network ipPre : String) (tuple : ResponseTuple) :
    (rtStage cfg tbl nowRT ipr network ipPre tuple).1.act ≠ .Slip ∧
      tableSlipZero (rtStage cfg tbl nowRT ipr network ipPre tuple).2 := by
  have hd := debit_slip_zero hr ht nowRT
    (allowanceForRtype cfg tuple.AllowanceCategory)
    (accountToken ipPre tuple.Qtype (toLowerGo tuple.SalientName)
      tuple.AllowanceCategory)
  simp only [rtStage]
  split_ifs <;> simp_all

/-- Under `slipRatio = 0` a full `Debit` never recommends `Slip` and
preserves the invariant (the IP stage discards the slip flag and can only
`Drop`). -/
theorem debitCore_no_slip {cfg : Config} (hr : cfg.slipRatio = 0)
    {tbl : Table} (ht : tableSlipZero tbl) (nowIP nowRT : Int)
    (network srcStr : String) (tuple : ResponseTuple) :
    (DebitCore cfg tbl nowIP nowRT network srcStr tuple).1.act ≠ .Slip ∧
      tableSlipZero (DebitCore cfg tbl nowIP nowRT network srcStr tuple).2 := by
  simp only [DebitCore]
  by_cases hq : cfg.requestsInterval ≠ 0
  · rw [if_pos hq]
    have hd := debit_slip_zero hr ht nowIP cfg.requestsInterval
      (addrPrefix cfg srcStr)
    by_cases hb : (debit cfg nowIP cfg.requestsInterval tbl
        (addrPrefix cfg srcStr)).1.1 < 0
    · rw [if_pos hb]
      exact ⟨by simp, hd.2⟩
    · rw [if_neg hb]
      exact rtStage_no_slip hr hd.2 nowRT .IPOk network (addrPrefix cfg srcStr) tuple
  · rw [if_neg hq]
    exact rtStage_no_slip hr ht nowRT .IPNotConfigured network
      (addrPrefix cfg srcStr) tuple

/-- C3: if the configured `slipRatio` is 0 then no `Debit` call, on any
address and any tuple, in any state reachable by any sequence of prior
`Debit` calls on a fresh instance, returns `Slip`. -/
theorem c3_no_slip (c : Config) (hr : c.slipRatio = 0) (calls : List DebitCall)
    (o : DebitOutcome) (ho : o ∈ (runDebits (NewRRL c).2 calls).1) :
    o.act ≠ .Slip := by
  have main : ∀ (calls : List DebitCall) (r : RRL), r.cfg.slipRatio = 0 →
      tableSlipZero r.table → ∀ o ∈ (runDebits r calls).1, o.act ≠ .Slip := by
    intro calls
    induction calls with
    | nil => intro r _ _ o ho; simp [runDebits] at ho
    | cons cl rest ih =>
        intro r hr' ht o ho
        have hstep := debitCore_no_slip hr' ht cl.nowIP cl.nowRT cl.network
          cl.src cl.tuple
        rcases List.mem_cons.mp ho with h | h
        · rw [h]; exact hstep.1
        · exact ih (Debit r cl.nowIP cl.nowRT cl.network cl.src cl.tuple).2
            hr' hstep.2 o h
  exact main calls (NewRRL c).2 hr (fun p hp => by simp [NewRRL] at hp) o ho

/-- The zero-slip configuration of the package's own window test. -/
def c3cfg : Config :=
  setv (setv NewConfig "responses-per-second" "1") "slip-ratio" "0"

/-- A C3 debit call at the pinned clock. -/
def c3call : DebitCall := ⟨0, 0, "udp", "127.0.0.1:53", ⟨1, 1, 0, "example.com."⟩⟩

/-- C3 witness: the third of three rate-limited debits — the one that slips
under the default ratio — is not `Slip` here. -/
theorem c3_no_slip_witness :
    ((runDebits (NewRRL c3cfg).2 (List.replicate 3 c3call)).1.getD 2
      ⟨.Send, .IPOk, .RTOk⟩).act ≠ .Slip :=
  c3_no_slip c3cfg (by decide) (List.replicate 3 c3call) _ (by decide)

/-!  Claim C4 — with `slip-ratio=2`, `responses-per-second=1` and a pinned
clock, one tuple's debits return `Send, Drop, Slip, Drop, Slip, Drop, …`.
The account state is eventually periodic with period 2 (once the balance
reaches the `−window` floor it stays there while the slip countdown keeps
alternating), so the unbounded pattern follows from the first 18 calls plus
a periodicity argument.  -/

/-- The C4 configuration: `responses-per-second=1`, `slip-ratio=2`. -/
def c4cfg : Config :=
  setv (setv NewConfig "responses-per-second" "1") "slip-ratio" "2"

/-- The C4 instance with its pinned test clock. -/
def c4rrl : RRL := (NewRRL (SetNowFunc c4cfg)).2

/-- The single UDP tuple debited throughout the C4 scenario. -/
def c4tup : ResponseTuple := ⟨1, 1, AllowanceAnswer, "example.com."⟩

/-- One C4 debit at the pinned clock. -/
def c4step (r : RRL) : RRL := (Debit r 0 0 "udp" "127.0.0.1:53" c4tup).2

/-- The instance after `n` C4 debits. -/
def c4run : Nat → RRL
  | 0 => c4rrl
  | n + 1 => c4step (c4run n)

/-- The action recommended by the debit that follows `n` prior debits. -/
def c4act (n : Nat) : Action :=
  (Debit (c4run n) 0 0 "udp" "127.0.0.1:53" c4tup).1.act

theorem c4run_cfg (n : Nat) : (c4run n).cfg = c4rrl.cfg := by
  induction n with
  | zero => rfl
  | succ n ih => exact ih

/-- A debit's outcome and successor table depend only on the configuration
and the table. -/
theorem c4_out_congr {r r' : RRL} (hc : r.cfg = r'.cfg)
    (ht : r.table = r'.table) :
    (Debit r 0 0 "udp" "127.0.0.1:53" c4tup).1 =
        (Debit r' 0 0 "udp" "127.0.0.1:53" c4tup).1 ∧
      (Debit r 0 0 "udp" "127.0.0.1:53" c4tup).2.table =
        (Debit r' 0 0 "udp" "127.0.0.1:53" c4tup).2.table := by
  show (DebitCore r.cfg r.table 0 0 "udp" "127.0.0.1:53" c4tup).1 =
      (DebitCore r'.cfg r'.table 0 0 "udp" "127.0.0.1:53" c4tup).1 ∧
    (DebitCore r.cfg r.table 0 0 "udp" "127.0.0.1:53" c4tup).2 =
      (DebitCore r'.cfg r'.table 0 0 "udp" "127.0.0.1:53" c4tup).2
  rw [hc, ht]
  exact ⟨rfl, rfl⟩

set_option maxRecDepth 16000 in
/-- Period 2: from the 16th debit on, the account table repeats every two
debits (balance pinned at `−window`, countdown alternating). -/
theorem c4_table_period (k : Nat) :
    (c4run (16 + k)).table = (c4run (18 + k)).table := by
  induction k with
  | zero => decide
  | succ k ih =>
      have hc : (c4run (16 + k)).cfg = (c4run (18 + k)).cfg := by
        rw [c4run_cfg, c4run_cfg]
      exact (c4_out_congr hc ih).2

theorem c4_act_period (k : Nat) : c4act (16 + k) = c4act (18 + k) := by
  have hc : (c4run (16 + k)).cfg = (c4run (18 + k)).cfg := by
    rw [c4run_cfg, c4run_cfg]
  exact congrArg DebitOutcome.act (c4_out_congr hc (c4_table_period k)).1

set_option maxRecDepth 16000 in
theorem c4_base : ∀ n, n < 18 → c4act n =
    (if n = 0 then Action.Send else if n % 2 = 1 then .Drop else .Slip) := by
  decide

/-- C4: at a pinned clock, the debit after `n` prior debits of the same
tuple returns `Send` when `n = 0`, `Drop` when `n` is odd, and `Slip` when
`n ≥ 2` is even — that is, the call sequence reads
`Send, Drop, Slip, Drop, Slip, Drop, …`, with `Slip` on exactly every
second rate-limited debit. -/
theorem c4_pattern (n : Nat) :
    (Debit (c4run n) 0 0 "udp" "127.0.0.1:53" c4tup).1.act =
      (if n = 0 then Action.Send else if n % 2 = 1 then .Drop else .Slip) := by
  induction n using Nat.strong_induction_on with
  | _ n ih =>
      by_cases h : n < 18
      · exact c4_base n h
      · obtain ⟨k, rfl⟩ : ∃ k, n = 18 + k := ⟨n - 18, by omega⟩
        have h1 : c4act (18 + k) = c4act (16 + k) := (c4_act_period k).symm
        have h2 := ih (16 + k) (by omega)
        have hp : (if (16 + k) = 0 then Action.Send
              else if (16 + k) % 2 = 1 then Action.Drop else Action.Slip) =
            (if (18 + k) = 0 then Action.Send
              else if (18 + k) % 2 = 1 then Action.Drop else Action.Slip) := by
          have e1 : ¬(16 + k = 0) := by omega
          have e2 : ¬(18 + k = 0) := by omega
          have e3 : (16 + k) % 2 = (18 + k) % 2 := by omega
          rw [if_neg e1, if_neg e2, e3]
        exact (h1.trans h2).trans hp

end RrlSpec
